import Mathlib

/-!
Verification of the mod-registry core of the spacehaven-modloader repository.

The Python sources embedded here are `ui/database.py` (classes `ModDatabase`
and `Mod`) and `spacehaven-modloader.py` (method `Window.current_mods_signature`).
Python builtins used by that code (`str.strip`, `str.lower`, `str.join`,
`int()`, `distutils.version.StrictVersion`) are modelled by small executable
Lean functions named `py...` or `parse...` below; the repository's own code is
translated statement by statement.
-/

namespace SpaceHaven

/-- Characters stripped by `text.strip("\r\n\t ")` in `Mod.loadInfo._sanitize`. -/
def isStripChar (c : Char) : Bool :=
  c = '\r' || c = '\n' || c = '\t' || c = ' '

/-- Model of Python `text.strip("\r\n\t ")`: remove those characters from both ends. -/
def pyStrip (s : String) : String :=
  String.mk (((s.data.dropWhile isStripChar).reverse.dropWhile isStripChar).reverse)

/-- Model of Python `str.lower` (per-character lowering; the repository only
feeds it ASCII mod names/versions). -/
def pyLower (s : String) : String :=
  String.mk (s.data.map Char.toLower)

/-- Model of Python `sep.join(list)`. -/
def pyJoin (sep : String) : List String → String
  | [] => ""
  | [s] => s
  | s :: rest => s ++ sep ++ pyJoin sep rest

/-- Model of Python `a or b` on strings: `b` when `a` is falsy (empty), else `a`. -/
def pyOrStr (a b : String) : String :=
  if a = "" then b else a

/-- Numeric value of a digit run. -/
def digitsVal (l : List Char) : Nat :=
  l.foldl (fun a c => a * 10 + (c.toNat - 48)) 0

/-- Model of Python `int(s)` on an already-stripped string: optional sign then
one or more digits; `none` models the `ValueError` raised otherwise. -/
def parsePyInt (s : String) : Option Int :=
  let core : List Char → Option Int := fun cs =>
    if cs.isEmpty || !cs.all Char.isDigit then none
    else some (Int.ofNat (digitsVal cs))
  match s.data with
  | '-' :: rest => (core rest).map (fun n => -n)
  | '+' :: rest => core rest
  | cs => core cs

/-- Model of `distutils.version.StrictVersion`: `major.minor[.patch][a|b N]`. -/
structure StrictVersion where
  major : Nat
  minor : Nat
  patch : Nat
  pre : Option (Char × Nat)
  deriving Repr, DecidableEq

/-- Parse the optional prerelease tail `([ab]\d+)?` of a strict version. -/
def parsePre : List Char → Option (Option (Char × Nat))
  | [] => some none
  | c :: rest =>
    if c = 'a' || c = 'b' then
      let d := rest.takeWhile Char.isDigit
      let r := rest.dropWhile Char.isDigit
      if d.isEmpty || !r.isEmpty then none else some (some (c, digitsVal d))
    else none

/-- Parse the optional `(\.\d+)?` patch component followed by the prerelease tail. -/
def parsePatchPre : List Char → Option (Nat × Option (Char × Nat))
  | [] => some (0, none)
  | '.' :: rest =>
    let d := rest.takeWhile Char.isDigit
    if d.isEmpty then none
    else (parsePre (rest.dropWhile Char.isDigit)).map (fun p => (digitsVal d, p))
  | l => (parsePre l).map (fun p => (0, p))

/-- Model of `StrictVersion(s)`: the anchored pattern
`(\d+)\.(\d+)(\.(\d+))?([ab](\d+))?`; `none` models the `ValueError`. -/
def parseStrictVersion (s : String) : Option StrictVersion :=
  let cs := s.data
  let d1 := cs.takeWhile Char.isDigit
  match cs.dropWhile Char.isDigit with
  | '.' :: r2 =>
    let d2 := r2.takeWhile Char.isDigit
    if d1.isEmpty || d2.isEmpty then none
    else (parsePatchPre (r2.dropWhile Char.isDigit)).map
      (fun pp => ⟨digitsVal d1, digitsVal d2, pp.1, pp.2⟩)
  | _ => none

/-- Prerelease ordering of `StrictVersion._cmp`: a prerelease sorts before the
plain release of the same numeric version. -/
def preLt : Option (Char × Nat) → Option (Char × Nat) → Bool
  | none, _ => false
  | some _, none => true
  | some (c1, n1), some (c2, n2) => decide (c1 < c2) || (c1 == c2 && decide (n1 < n2))

/-- Model of `StrictVersion.__lt__`: numeric triple lexicographically, then prerelease. -/
def svLt (a b : StrictVersion) : Bool :=
  if a.major ≠ b.major then decide (a.major < b.major)
  else if a.minor ≠ b.minor then decide (a.minor < b.minor)
  else if a.patch ≠ b.patch then decide (a.patch < b.patch)
  else preLt a.pre b.pre

/-- A parsed manifest document: the root element's direct children, in order,
as (tag, text) pairs; `none` text models an element whose `.text` is `None`. -/
structure XmlRoot where
  children : List (String × Option String)
  deriving Repr, DecidableEq

/-- Model of `ElementTree.Element.find(tag)` followed by `.text`: `none` when no
child has the tag, `some t` the text of the first one that does. -/
def XmlRoot.findText (r : XmlRoot) (tag : String) : Option (Option String) :=
  (r.children.find? (fun c => c.1 == tag)).map (fun c => c.2)

/-- The `Mod` entity of `ui/database.py` (class `Mod`). `modid` embeds the
Python attribute `self.prefix` (Lean reserves that word) and `mappedIDs` the
attribute `self._mappedIDs`. -/
structure Mod where
  path : String
  name : String
  description : String := ""
  known_issues : String := ""
  version : String := ""
  author : String := ""
  website : String := ""
  updates : String := ""
  modid : Int := 0
  minimumLoaderVersion : Option String := none
  enabled : Bool := true
  mappedIDs : List Int := []
  deriving Repr, DecidableEq

/-- `Mod.title`: name plus a parenthesised version when one is known. -/
def Mod.title (m : Mod) : String :=
  if m.version = "" then m.name else m.name ++ " (" ++ m.version ++ ")"

/-- The spec's error taxonomy for `Mod.getAutomaticID`: `duplicateAllocation`
embeds the `ValueError` raise, `allocationOutOfRange` the `RuntimeError` raise. -/
inductive AllocError where
  | duplicateAllocation
  | allocationOutOfRange
  deriving Repr, DecidableEq

instance {ε α : Type} [DecidableEq ε] [DecidableEq α] : DecidableEq (Except ε α) :=
  fun a b =>
    match a, b with
    | .ok x, .ok y =>
      if h : x = y then .isTrue (by rw [h]) else .isFalse (by intro he; injection he; contradiction)
    | .error x, .error y =>
      if h : x = y then .isTrue (by rw [h]) else .isFalse (by intro he; injection he; contradiction)
    | .ok _, .error _ => .isFalse (by intro he; injection he)
    | .error _, .ok _ => .isFalse (by intro he; injection he)

/-- `Mod.getAutomaticID(internalID)`: returns the updated entity together with
the outcome. The Python method appends to `self._mappedIDs` and computes the id
before the range check, so the state update survives the `RuntimeError`. -/
def Mod.getAutomaticID (m : Mod) (internalID : Int) : Mod × Except AllocError String :=
  let autoIDAllocatedSize : Int := 1000
  if internalID ∈ m.mappedIDs then
    (m, .error .duplicateAllocation)
  else
    let m1 := { m with mappedIDs := m.mappedIDs ++ [internalID] }
    let id := m.modid * autoIDAllocatedSize + internalID
    if internalID > autoIDAllocatedSize then
      (m1, .error .allocationOutOfRange)
    else
      (m1, .ok (toString id))

/-- `Mod.__init__` up to the `loadInfo` call: `name` is the folder's base name,
`enabled` the absence of the `disabled.txt` marker, the ID ledger empty. -/
def initMod (path name : String) (markerPresent : Bool) : Mod :=
  { path := path, name := name, enabled := !markerPresent }

/-- The fixed error description of the missing-info-file branch of `Mod.loadInfo`. -/
def noInfoDescription : String :=
  "Error loading mod: no info file present. Please create one."

/-- The fixed error description of the `except AttributeError` branch of `Mod.loadInfo`. -/
def parseErrorDescription : String :=
  "Error loading mod: error parsing info file."

/-- The `except AttributeError` handler of `Mod.loadInfo`: mark the title and
replace the description, keeping whatever fields were assigned before the raise. -/
def markBroken (m : Mod) : Mod :=
  { m with name := m.name ++ " [!]", description := parseErrorDescription }

/-- `Mod.warn(message)`: mark the title and append a warning to the description. -/
def Mod.warn (m : Mod) (message : String) : Mod :=
  { m with name := m.name ++ " [!]",
           description := m.description ++ "\nWARNING: " ++ message ++ "!" }

/-- `_sanitize(mod.find(tag))`: fails (Python `AttributeError`) when the tag is
absent or its text is `None`, else strips the text. -/
def sanitizeFind (root : XmlRoot) (tag : String) : Option String :=
  match root.findText tag with
  | some (some t) => some (pyStrip t)
  | _ => none

/-- `_optional(tag)`: like `sanitizeFind` but the bare `except` turns failure
into the empty string. -/
def optionalTag (root : XmlRoot) (tag : String) : String :=
  (sanitizeFind root tag).getD ""

/-- Which branch of `Mod.loadInfo` produced the entity: `noFile` the
missing-info-file early return, `loaded` a completed `try` block, `invalid` the
`except AttributeError` handler, `uncaught` an exception the method does not
catch (`ElementTree.ParseError`, or `ValueError` from `int()` /
`StrictVersion`), which aborts the caller. -/
inductive LoadResult where
  | noFile (m : Mod)
  | loaded (m : Mod)
  | invalid (m : Mod)
  | uncaught
  deriving Repr, DecidableEq

/-- `Mod.loadInfo(infoFile)` (including the `verifyLoaderVersion` call; the
`verifyGameVersion` call returns immediately and is omitted). `loaderVersion`
embeds the loader's own parsed `version.version` constant; `fileExists` the
`os.path.exists` check; `doc` the outcome of `ElementTree.parse`, `none` being
an uncaught parse error. A `minimumLoaderVersion` element with `None` or empty
text leaves the falsy string unparsed and the later comparison raises
`AttributeError`, landing in the `invalid` branch. -/
def loadInfo (loaderVersion : StrictVersion) (m0 : Mod) (fileExists : Bool)
    (doc : Option XmlRoot) : LoadResult :=
  if !fileExists then
    .noFile { m0 with name := m0.name ++ " [!]", description := noInfoDescription }
  else
    match doc with
    | none => .uncaught
    | some root =>
      match sanitizeFind root "name" with
      | none => .invalid (markBroken m0)
      | some nm =>
        let m1 := { m0 with name := nm }
        match sanitizeFind root "description" with
        | none => .invalid (markBroken m1)
        | some desc =>
          let m2 := { m1 with
            description := desc,
            known_issues := optionalTag root "knownIssues",
            version := optionalTag root "version",
            author := optionalTag root "author",
            website := optionalTag root "website",
            updates := optionalTag root "updates" }
          match parsePyInt (pyOrStr (optionalTag root "modid") "0") with
          | none => .uncaught
          | some p =>
            let m3 := { m2 with modid := p }
            match root.findText "minimumLoaderVersion" with
            | none => .invalid (markBroken m3)
            | some none => .invalid (markBroken m3)
            | some (some t) =>
              let m4 := { m3 with minimumLoaderVersion := some t }
              if t = "" then .invalid (markBroken m4)
              else
                match parseStrictVersion t with
                | none => .uncaught
                | some mv =>
                  if svLt loaderVersion mv then
                    .loaded (m4.warn ("Mod loader version " ++ t ++ " is required"))
                  else .loaded m4

/-- `Mod.enable()` acting on the entity and the marker-file presence: `unlink`
succeeds only when the marker exists, and only then is `enabled` set; the bare
`except: pass` otherwise leaves the flag untouched. -/
def Mod.enable (m : Mod) (markerPresent : Bool) : Mod × Bool :=
  if markerPresent then ({ m with enabled := true }, false) else (m, false)

/-- `Mod.disable()`: write the marker file, then clear the flag. -/
def Mod.disable (m : Mod) (_markerPresent : Bool) : Mod × Bool :=
  ({ m with enabled := false }, true)

/-- Whether `pat` is an initial segment of the second list. -/
def leadsWith : List Char → List Char → Bool
  | [], _ => true
  | _ :: _, [] => false
  | p :: ps, x :: xs => p == x && leadsWith ps xs

/-- Model of Python `pat in s` on strings: `pat` occurs contiguously in the list. -/
def hasSubstring (pat : List Char) : List Char → Bool
  | [] => pat.isEmpty
  | x :: xs => leadsWith pat (x :: xs) || hasSubstring pat xs

/-- One directory entry seen by `ModDatabase.locateMods`: its name, whether it
is a plain file, whether `info` / `info.xml` exist inside it, the parse outcome
of that info file (`none` = ill-formed XML), and the `disabled.txt` presence. -/
structure Folder where
  name : String
  isFile : Bool := false
  hasInfo : Bool := false
  hasInfoXml : Bool := false
  doc : Option XmlRoot := none
  markerPresent : Bool := false
  deriving Repr, DecidableEq

/-- The collision warning `locateMods` sends to the operator log. -/
def collisionMsg (m : Mod) : String :=
  "  Warning: Mod prefix " ++ toString m.modid ++ " for mod " ++ m.title ++
    " is already in use."

/-- Lookup in the `ModDatabase.Prefixes` dict. -/
def getClaim (l : List (Int × Bool)) (p : Int) : Option Bool :=
  (l.find? (fun e => e.1 == p)).map (fun e => e.2)

/-- Assignment `Prefixes[p] = b` on the dict: overwrite or append. -/
def setClaim : List (Int × Bool) → Int → Bool → List (Int × Bool)
  | [], p, b => [(p, b)]
  | (q, c) :: rest, p, b =>
    if q = p then (p, b) :: rest else (q, c) :: setClaim rest p b

/-- The state `locateMods` builds up: the entity list, the class-level
`Prefixes` dict, and the collision warnings written to the operator log. -/
structure ScanState where
  mods : List Mod
  claims : List (Int × Bool)
  warnings : List String
  deriving Repr, DecidableEq

/-- The prefix-claim bookkeeping and registration `locateMods` performs on each
newly constructed entity: warn (and leave the dict alone) only when the prefix
is nonzero and its recorded claim is the truthy `True`; otherwise record or
overwrite the claim with the new entity's flag; append the entity regardless. -/
def registerMod (st : ScanState) (m : Mod) : ScanState :=
  let st1 :=
    if m.modid ≠ 0 then
      match getClaim st.claims m.modid with
      | some true => { st with warnings := st.warnings ++ [collisionMsg m] }
      | _ => { st with claims := setClaim st.claims m.modid m.enabled }
    else st
  { st1 with mods := st1.mods ++ [m] }

/-- One iteration of the inner loop of `ModDatabase.locateMods` for the entry
`f` of root directory `dir`: the skip conditions, then `Mod(info_file, ...)`
construction (whose uncaught exceptions abort the whole scan), then
registration. -/
def processFolder (loaderVersion : StrictVersion) (st : ScanState) (dir : String)
    (f : Folder) : Except Unit ScanState :=
  if hasSubstring "spacehaven".data f.name.data then .ok st
  else if f.isFile then .ok st
  else if !(f.hasInfo || f.hasInfoXml) then .ok st
  else
    match loadInfo loaderVersion (initMod (dir ++ "/" ++ f.name) f.name f.markerPresent)
        true f.doc with
    | .uncaught => .error ()
    | .noFile m => .ok (registerMod st m)
    | .loaded m => .ok (registerMod st m)
    | .invalid m => .ok (registerMod st m)

/-- `ModDatabase.locateMods()` over explicit directory listings: reset the
state, fold `processFolder` over every root's entries, then sort by name. -/
def locateMods (loaderVersion : StrictVersion)
    (pathList : List (String × List Folder)) : Except Unit ScanState := do
  let st ← pathList.foldlM
    (fun st pf => pf.2.foldlM (fun st f => processFolder loaderVersion st pf.1 f) st)
    ⟨[], [], []⟩
  .ok { st with mods := st.mods.mergeSort (fun a b => a.name ≤ b.name) }

/-- The `ModDatabase` instance state relevant to the accessors. -/
structure ModDatabase where
  mods : List Mod
  deriving Repr, DecidableEq

/-- Process-wide state: the class variable `ModDatabase.__lastInstance`, plus a
history flag recording whether any `locateMods` call has ever completed. -/
structure ProcState where
  lastInstance : Option ModDatabase
  scanDone : Bool
  deriving Repr, DecidableEq

/-- The fresh process state: no instance constructed, no scan completed. -/
def initialProc : ProcState := ⟨none, false⟩

/-- `ModDatabase.__init__`: bind the class-level last instance (with an empty
mod list) at construction time. -/
def constructDatabase (st : ProcState) : ProcState :=
  { st with lastInstance := some ⟨[]⟩ }

/-- The `RegistryNotReady` failure of `ModDatabase.getInstance` ("Mod Database
not ready."). -/
inductive DBError where
  | registryNotReady
  deriving Repr, DecidableEq

/-- `ModDatabase.getInstance()`: the last constructed instance, or the
not-ready error when none exists. -/
def getInstance (st : ProcState) : Except DBError ModDatabase :=
  match st.lastInstance with
  | none => .error .registryNotReady
  | some db => .ok db

/-- `ModDatabase.getActiveMods()`. -/
def getActiveMods (st : ProcState) : Except DBError (List Mod) :=
  (getInstance st).map (fun db => db.mods.filter (fun m => m.enabled))

/-- `ModDatabase.getInactiveMods()`. -/
def getInactiveMods (st : ProcState) : Except DBError (List Mod) :=
  (getInstance st).map (fun db => db.mods.filter (fun m => !m.enabled))

/-- `ModDatabase.getRegisteredMods()`. -/
def getRegisteredMods (st : ProcState) : Except DBError (List Mod) :=
  (getInstance st).map (fun db => db.mods)

/-- `ModDatabase.getMod(modPath)`: first mod with that installation path; the
loop falling through returns Python `None`, here `none`. -/
def getMod (st : ProcState) (modPath : String) : Except DBError (Option Mod) :=
  (getInstance st).map (fun db => db.mods.find? (fun m => m.path == modPath))

/-- A completed scan at process level: look up the instance, run `locateMods`,
store the result, record that a scan has completed. -/
def runLocateMods (loaderVersion : StrictVersion) (st : ProcState)
    (pathList : List (String × List Folder)) : Except DBError (Except Unit ProcState) :=
  (getInstance st).map (fun _ =>
    (locateMods loaderVersion pathList).map (fun sc =>
      { st with lastInstance := some ⟨sc.mods⟩, scanDone := true }))

/-- `Window.mods_enabled()`: the active subset, here of an explicit mod list. -/
def mods_enabled (mods : List Mod) : List Mod :=
  mods.filter (fun m => m.enabled)

/-- The token list `mods_signature` built by `Window.current_mods_signature`. -/
def signatureTokens (gameVersion : String) (mods : List Mod) : List String :=
  (mods_enabled mods).foldl
    (fun acc m => acc ++ [m.name] ++ [pyOrStr m.version "VERSION_UNKNOWN"])
    ["spacehaven", gameVersion]

/-- The string `text_sig` of `Window.current_mods_signature`: tokens joined
with `"__"`, lower-cased. -/
def currentModsTextSig (gameVersion : String) (mods : List Mod) : String :=
  pyLower (pyJoin "__" (signatureTokens gameVersion mods))

/-- `Window.current_mods_signature()`: the content digest (`hashlib.md5`,
abstracted as the `digest` argument) of the UTF-8 text signature. -/
def current_mods_signature (digest : String → String) (gameVersion : String)
    (mods : List Mod) : String :=
  digest (currentModsTextSig gameVersion mods)

/-- An enable/disable call in a lifecycle sequence. -/
inductive ToggleOp where
  | en
  | dis
  deriving Repr, DecidableEq

/-- Run one toggle call against the (entity, marker-file-presence) state. -/
def applyOp : Mod × Bool → ToggleOp → Mod × Bool
  | s, .en => s.1.enable s.2
  | s, .dis => s.1.disable s.2

end SpaceHaven

namespace SpaceHaven

lemma applyOp_consistent (s : Mod × Bool) (h : s.1.enabled = !s.2) (op : ToggleOp) :
    (applyOp s op).1.enabled = !(applyOp s op).2 := by
  obtain ⟨m, p⟩ := s
  cases op with
  | en =>
    cases p with
    | true => simp [applyOp, Mod.enable]
    | false => simpa [applyOp, Mod.enable] using h
  | dis => simp [applyOp, Mod.disable]

lemma foldl_applyOp_consistent (ops : List ToggleOp) :
    ∀ s : Mod × Bool, s.1.enabled = !s.2 →
      (List.foldl applyOp s ops).1.enabled = !(List.foldl applyOp s ops).2 := by
  induction ops with
  | nil => intro s h; simpa using h
  | cons op rest ih => intro s h; exact ih _ (applyOp_consistent s h op)

lemma str_append_cancel_left {a b c : String} (h : a ++ b = a ++ c) : b = c := by
  have h2 := congrArg String.data h
  rw [String.data_append, String.data_append] at h2
  exact String.ext (List.append_cancel_left h2)

lemma str_append_cancel_right {a b c : String} (h : a ++ c = b ++ c) : a = b := by
  have h2 := congrArg String.data h
  rw [String.data_append, String.data_append] at h2
  exact String.ext (List.append_cancel_right h2)

lemma pyLower_append (a b : String) : pyLower (a ++ b) = pyLower a ++ pyLower b := by
  apply String.ext
  simp [pyLower, String.data_append]

lemma pyLower_length (s : String) : (pyLower s).length = s.length := by
  show (s.data.map Char.toLower).length = s.data.length
  exact List.length_map ..

lemma pyJoin_cons (sep a : String) (l : List String) (h : l ≠ []) :
    pyJoin sep (a :: l) = a ++ sep ++ pyJoin sep l := by
  cases l with
  | nil => exact absurd rfl h
  | cons b bs => rfl

lemma pyJoin_length (sep : String) (l : List String) (h : l ≠ []) :
    (pyJoin sep l).length = (l.map String.length).sum + sep.length * (l.length - 1) := by
  induction l with
  | nil => exact absurd rfl h
  | cons a bs ih =>
    cases bs with
    | nil => simp [pyJoin]
    | cons c cs =>
      rw [pyJoin_cons sep a (c :: cs) (by simp)]
      rw [String.length_append, String.length_append, ih (by simp)]
      simp only [List.map_cons, List.sum_cons, List.length_cons, Nat.add_sub_cancel]
      ring

lemma pyJoin_middle (sep x : String) (P S : List String) (hP : P ≠ []) :
    pyJoin sep (P ++ x :: S)
      = pyJoin sep P ++ sep ++ x ++ (if S.isEmpty then "" else sep ++ pyJoin sep S) := by
  induction P with
  | nil => exact absurd rfl hP
  | cons a P ih =>
    cases P with
    | nil =>
      cases S with
      | nil => simp [pyJoin, String.append_empty]
      | cons s ss =>
        rw [List.singleton_append,
          pyJoin_cons sep a (x :: s :: ss) (by simp),
          pyJoin_cons sep x (s :: ss) (by simp)]
        simp [pyJoin, String.append_assoc]
    | cons b P2 =>
      rw [List.cons_append, pyJoin_cons sep a ((b :: P2) ++ x :: S) (by simp),
        ih (by simp), pyJoin_cons sep a (b :: P2) (by simp)]
      simp [String.append_assoc]

/-- The token list built by the signature loop, as the clean concatenation the
spec describes. -/
lemma signatureTokens_eq (gv : String) (mods : List Mod) :
    signatureTokens gv mods
      = ["spacehaven", gv] ++ (mods.filter (fun m => m.enabled)).flatMap
          (fun m => [m.name, pyOrStr m.version "VERSION_UNKNOWN"]) := by
  have key : ∀ (l : List Mod) (acc : List String),
      l.foldl (fun acc m => acc ++ [m.name] ++ [pyOrStr m.version "VERSION_UNKNOWN"]) acc
        = acc ++ l.flatMap (fun m => [m.name, pyOrStr m.version "VERSION_UNKNOWN"]) := by
    intro l
    induction l with
    | nil => intro acc; simp
    | cons m ms ih =>
      intro acc
      rw [List.foldl_cons, ih, List.flatMap_cons]
      simp
  unfold signatureTokens mods_enabled
  rw [key]

lemma textSig_eq (gv : String) (mods : List Mod) :
    currentModsTextSig gv mods
      = pyLower (pyJoin "__" (["spacehaven", gv] ++ (mods.filter (fun m => m.enabled)).flatMap
          (fun m => [m.name, pyOrStr m.version "VERSION_UNKNOWN"]))) := by
  unfold currentModsTextSig
  rw [signatureTokens_eq]

/-- C1: `getAutomaticID` fails with `DuplicateAllocation` on an already
allocated local ID; otherwise fails with `AllocationOutOfRange` only for
`localID > 1000` (the boundary value 1000 is accepted); otherwise records the
allocation and returns `prefix * 1000 + localID` as its decimal string. -/
theorem C1_allocateID (m : Mod) (i : Int) :
    (i ∈ m.mappedIDs → m.getAutomaticID i = (m, .error .duplicateAllocation)) ∧
    (i ∉ m.mappedIDs → 1000 < i →
      m.getAutomaticID i
        = ({ m with mappedIDs := m.mappedIDs ++ [i] }, .error .allocationOutOfRange)) ∧
    (i ∉ m.mappedIDs → i ≤ 1000 →
      m.getAutomaticID i
        = ({ m with mappedIDs := m.mappedIDs ++ [i] },
           .ok (toString (m.modid * 1000 + i)))) := by
  refine ⟨fun h => ?_, fun h h2 => ?_, fun h h2 => ?_⟩
  · simp [Mod.getAutomaticID, h]
  · simp [Mod.getAutomaticID, h, h2]
  · simp [Mod.getAutomaticID, h, not_lt.mpr h2]

/-- Witness for C1 at a concrete in-range allocation. -/
theorem C1_allocateID_witness :
    (5 : Int) ∉ (initMod "mods/M" "M" false).mappedIDs ∧
    (initMod "mods/M" "M" false).getAutomaticID 5
      = ({ initMod "mods/M" "M" false with
            mappedIDs := (initMod "mods/M" "M" false).mappedIDs ++ [5] },
         .ok (toString ((initMod "mods/M" "M" false).modid * 1000 + 5))) :=
  ⟨by decide, (C1_allocateID (initMod "mods/M" "M" false) 5).2.2 (by decide) (by decide)⟩

/-- C1 as frozen is false: `localID = 1000` is ≥ 1000 and not yet allocated,
yet the call succeeds with global ID `"1000"` instead of failing with
`AllocationOutOfRange`. -/
theorem C1_counterexample :
    (1000 : Int) ∉ (initMod "mods/M" "M" false).mappedIDs ∧
    (1000 : Int) ≥ 1000 ∧
    (initMod "mods/M" "M" false).getAutomaticID 1000
      ≠ ({ initMod "mods/M" "M" false with mappedIDs := [1000] },
         .error .allocationOutOfRange) ∧
    ((initMod "mods/M" "M" false).getAutomaticID 1000).2 = .ok "1000" := by
  refine ⟨by decide, by decide, ?_, by decide⟩
  decide

/-- C9: an out-of-range allocation fails only after the ledger has grown, so
the same local ID retried on the returned entity now fails with
`DuplicateAllocation`, and the entity is not left unchanged. -/
theorem C9_range_failure_mutates (m : Mod) (i : Int)
    (h1 : i ∉ m.mappedIDs) (h2 : 1000 < i) :
    (m.getAutomaticID i).2 = .error .allocationOutOfRange ∧
    (m.getAutomaticID i).1.mappedIDs = m.mappedIDs ++ [i] ∧
    (m.getAutomaticID i).1 ≠ m ∧
    ((m.getAutomaticID i).1.getAutomaticID i).2 = .error .duplicateAllocation := by
  have hne : m.mappedIDs ++ [i] ≠ m.mappedIDs := by
    intro h
    have := congrArg List.length h
    simp at this
  refine ⟨?_, ?_, ?_, ?_⟩
  · simp [Mod.getAutomaticID, h1, h2]
  · simp [Mod.getAutomaticID, h1, h2]
  · intro h
    exact hne (by simpa [Mod.getAutomaticID, h1, h2] using congrArg Mod.mappedIDs h)
  · simp [Mod.getAutomaticID, h1, h2]

/-- Witness for C9 at a concrete out-of-range allocation. -/
theorem C9_range_failure_mutates_witness :
    (2000 : Int) ∉ (initMod "mods/M" "M" false).mappedIDs ∧
    (1000 : Int) < 2000 ∧
    (((initMod "mods/M" "M" false).getAutomaticID 2000).2
        = .error .allocationOutOfRange ∧
      ((initMod "mods/M" "M" false).getAutomaticID 2000).1.mappedIDs
        = (initMod "mods/M" "M" false).mappedIDs ++ [2000] ∧
      ((initMod "mods/M" "M" false).getAutomaticID 2000).1 ≠ initMod "mods/M" "M" false ∧
      (((initMod "mods/M" "M" false).getAutomaticID 2000).1.getAutomaticID 2000).2
        = .error .duplicateAllocation) :=
  ⟨by decide, by decide,
    C9_range_failure_mutates (initMod "mods/M" "M" false) 2000 (by decide) (by decide)⟩

/-- C10: with a bound instance, `getMod` on a path owned by no registered mod
falls through the loop and returns `None` rather than raising. -/
theorem C10_getMod_absent (st : ProcState) (db : ModDatabase) (p : String)
    (hdb : st.lastInstance = some db) (habs : ∀ m ∈ db.mods, m.path ≠ p) :
    getMod st p = .ok none := by
  simp only [getMod, getInstance, hdb, Except.map]
  have : db.mods.find? (fun m => m.path == p) = none := by
    apply List.find?_eq_none.mpr
    intro m hm
    simp [habs m hm]
  rw [this]

/-- Witness for C10: one registered mod, a different path queried. -/
theorem C10_getMod_absent_witness :
    getMod ⟨some ⟨[initMod "mods/A" "A" false]⟩, true⟩ "mods/B" = .ok none :=
  C10_getMod_absent ⟨some ⟨[initMod "mods/A" "A" false]⟩, true⟩
    ⟨[initMod "mods/A" "A" false]⟩ "mods/B" rfl (by decide)

/-- C6 as frozen is false: constructing a database binds the current instance
before any scan has completed, and the accessors already succeed there. -/
theorem C6_counterexample :
    (constructDatabase initialProc).scanDone = false ∧
    getRegisteredMods (constructDatabase initialProc) = .ok [] ∧
    getActiveMods (constructDatabase initialProc) = .ok [] := by
  refine ⟨rfl, rfl, rfl⟩

/-- C6 amended: the accessors fail with `RegistryNotReady` exactly when no
instance was ever constructed; with a bound instance (in particular after any
completed scan, which requires and rebinds one) they all succeed. -/
theorem C6_registry_accessors :
    (∀ st : ProcState, st.lastInstance = none →
      getActiveMods st = .error .registryNotReady ∧
      getInactiveMods st = .error .registryNotReady ∧
      getRegisteredMods st = .error .registryNotReady ∧
      ∀ p, getMod st p = .error .registryNotReady) ∧
    (∀ (st : ProcState) (db : ModDatabase), st.lastInstance = some db →
      getActiveMods st = .ok (db.mods.filter (fun m => m.enabled)) ∧
      getInactiveMods st = .ok (db.mods.filter (fun m => !m.enabled)) ∧
      getRegisteredMods st = .ok db.mods ∧
      ∀ p, getMod st p = .ok (db.mods.find? (fun m => m.path == p))) ∧
    (∀ (lv : StrictVersion) (st : ProcState) (pl : List (String × List Folder))
        (st2 : ProcState), runLocateMods lv st pl = .ok (.ok st2) →
      (getRegisteredMods st2).isOk = true ∧ (getActiveMods st2).isOk = true ∧
      (getInactiveMods st2).isOk = true ∧ ∀ p, (getMod st2 p).isOk = true) := by
  refine ⟨?_, ?_, ?_⟩
  · intro st h
    refine ⟨?_, ?_, ?_, fun p => ?_⟩ <;>
      simp [getActiveMods, getInactiveMods, getRegisteredMods, getMod, getInstance, h,
        Except.map]
  · intro st db h
    refine ⟨?_, ?_, ?_, fun p => ?_⟩ <;>
      simp [getActiveMods, getInactiveMods, getRegisteredMods, getMod, getInstance, h,
        Except.map]
  · intro lv st pl st2 h
    simp only [runLocateMods] at h
    cases hinst : st.lastInstance with
    | none => simp [getInstance, hinst, Except.map] at h
    | some db =>
      simp only [getInstance, hinst, Except.map] at h
      cases hscan : locateMods lv pl with
      | error e => simp [hscan] at h
      | ok sc =>
        simp only [hscan, Except.map, Except.ok.injEq] at h
        have h2 : st2.lastInstance = some ⟨sc.mods⟩ := by
          rw [← h]
        refine ⟨?_, ?_, ?_, fun p => ?_⟩ <;>
          simp [getActiveMods, getInactiveMods, getRegisteredMods, getMod, getInstance,
            h2, Except.map, Except.isOk, Except.toBool]

/-- Witness for C6: the accessors succeed against a concretely bound instance
and fail on the fresh process state. -/
theorem C6_registry_accessors_witness :
    getRegisteredMods ⟨some ⟨[initMod "mods/A" "A" false]⟩, true⟩
        = .ok [initMod "mods/A" "A" false] ∧
    getRegisteredMods initialProc = .error .registryNotReady :=
  ⟨(C6_registry_accessors.2.1 ⟨some ⟨[initMod "mods/A" "A" false]⟩, true⟩
      ⟨[initMod "mods/A" "A" false]⟩ rfl).2.2.1,
   (C6_registry_accessors.1 initialProc rfl).2.2.1⟩

/-- C8 as frozen is false: from the (unreachable by this code, but quantified
over by the claim) starting state "marker absent, flag disabled", `enable()`
has its `unlink` fail, the bare `except` swallows it, and the flag stays false. -/
theorem C8_counterexample :
    (Mod.enable { path := "mods/M", name := "M", enabled := false } false).1.enabled
        = false ∧
    (Mod.enable { path := "mods/M", name := "M", enabled := false } false).2 = false := by
  exact ⟨rfl, rfl⟩

/-- C8 amended: `disable()` always leaves the marker present and the flag
false; `enable()` always leaves the marker absent, and sets the flag true
provided the starting state is consistent (`enabled` = marker absent, the only
states this code ever produces); both are idempotent, `enable()` swallows the
delete error, and from any consistent starting state the final (flag, marker)
pair of a call sequence depends only on the last call. -/
theorem C8_enable_disable :
    (∀ (m : Mod) (p : Bool), m.disable p = ({ m with enabled := false }, true)) ∧
    (∀ (m : Mod) (p : Bool), (m.enable p).2 = false) ∧
    (∀ (m : Mod) (p : Bool), m.enabled = !p → m.enable p = ({ m with enabled := true }, false)) ∧
    (∀ (m : Mod) (p : Bool),
      applyOp (applyOp (m, p) .en) .en = applyOp (m, p) .en ∧
      applyOp (applyOp (m, p) .dis) .dis = applyOp (m, p) .dis) ∧
    (∀ (m : Mod) (p : Bool) (ops : List ToggleOp) (op : ToggleOp), m.enabled = !p →
      ((List.foldl applyOp (m, p) (ops ++ [op])).1.enabled,
        (List.foldl applyOp (m, p) (ops ++ [op])).2)
        = (match op with | .en => (true, false) | .dis => (false, true))) := by
  refine ⟨fun m p => rfl, ?_, ?_, ?_, ?_⟩
  · intro m p
    cases p <;> simp [Mod.enable]
  · intro m p h
    cases p with
    | true => simp [Mod.enable]
    | false =>
      simp only [Bool.not_false] at h
      cases m
      simp_all [Mod.enable]
  · intro m p
    constructor
    · cases p <;> simp [applyOp, Mod.enable]
    · simp [applyOp, Mod.disable]
  · intro m p ops op h
    rw [List.foldl_append]
    have hcons := foldl_applyOp_consistent ops (m, p) h
    generalize hg : List.foldl applyOp (m, p) ops = t at hcons ⊢
    obtain ⟨m2, p2⟩ := t
    cases op with
    | en =>
      cases p2 with
      | true => simp [applyOp, Mod.enable]
      | false =>
        simp only [Bool.not_false] at hcons
        simp [applyOp, Mod.enable, hcons]
    | dis => simp [applyOp, Mod.disable]

/-- C4 as frozen is false: a manifest file whose content is not well-formed XML
raises `ElementTree.ParseError`, which `loadInfo` does not catch (it catches
only `AttributeError`), so the scan aborts instead of registering a broken mod. -/
theorem C4_counterexample :
    locateMods ⟨0, 8, 0, none⟩ [("mods", [{ name := "Bad", hasInfo := true }])]
      = .error () := by
  rfl

/-- C4 amended: a child directory with no manifest file (neither `info` nor
`info.xml`) never produces a registered mod; a manifest that parses as XML but
whose required `name` tag is absent/textless produces a mod in the broken state
(marked title, fixed error description); and any entity the constructor returns
in the broken state is still registered and the scan continues (only uncaught
exceptions — ill-formed XML, non-integer `modid`, invalid
`minimumLoaderVersion` format — abort it). -/
theorem C4_scan_manifest_handling :
    (∀ (lv : StrictVersion) (st : ScanState) (dir : String) (f : Folder),
      f.hasInfo = false → f.hasInfoXml = false →
      processFolder lv st dir f = .ok st) ∧
    (∀ (lv : StrictVersion) (m0 : Mod) (root : XmlRoot),
      sanitizeFind root "name" = none →
      loadInfo lv m0 true (some root)
        = .invalid { m0 with name := m0.name ++ " [!]",
                             description := parseErrorDescription }) ∧
    (∀ (lv : StrictVersion) (st : ScanState) (dir : String) (f : Folder) (m : Mod),
      hasSubstring "spacehaven".data f.name.data = false → f.isFile = false →
      (f.hasInfo || f.hasInfoXml) = true →
      loadInfo lv (initMod (dir ++ "/" ++ f.name) f.name f.markerPresent) true f.doc
        = .invalid m →
      processFolder lv st dir f = .ok (registerMod st m)) := by
  refine ⟨?_, ?_, ?_⟩
  · intro lv st dir f h1 h2
    unfold processFolder
    split
    · rfl
    · split
      · rfl
      · simp [h1, h2]
  · intro lv m0 root h
    simp [loadInfo, h, markBroken]
  · intro lv st dir f m hsub hfile hinfo hload
    simp [processFolder, hsub, hfile, hinfo, hload]

/-- Witness for C4: a directory with no manifest is skipped, and a manifest
with no `name` tag yields a broken, still-registered mod. -/
theorem C4_scan_manifest_handling_witness :
    processFolder ⟨0, 8, 0, none⟩ ⟨[], [], []⟩ "mods" { name := "Empty" }
      = .ok ⟨[], [], []⟩ ∧
    processFolder ⟨0, 8, 0, none⟩ ⟨[], [], []⟩ "mods"
        { name := "Bad2", hasInfo := true, doc := some ⟨[]⟩ }
      = .ok (registerMod ⟨[], [], []⟩
          { initMod "mods/Bad2" "Bad2" false with
              name := "Bad2" ++ " [!]", description := parseErrorDescription }) :=
  ⟨C4_scan_manifest_handling.1 ⟨0, 8, 0, none⟩ ⟨[], [], []⟩ "mods" { name := "Empty" }
      rfl rfl,
   C4_scan_manifest_handling.2.2 ⟨0, 8, 0, none⟩ ⟨[], [], []⟩ "mods"
      { name := "Bad2", hasInfo := true, doc := some ⟨[]⟩ }
      { initMod "mods/Bad2" "Bad2" false with
          name := "Bad2" ++ " [!]", description := parseErrorDescription }
      (by decide) rfl rfl
      (C4_scan_manifest_handling.2.1 ⟨0, 8, 0, none⟩ (initMod "mods/Bad2" "Bad2" false)
        ⟨[]⟩ rfl)⟩

/-- C5 as frozen is false: when the earlier claimant of prefix 3 is disabled,
the recorded claim is falsy, so the later enabled mod takes the `else` branch:
no collision warning is logged and the claim is overwritten with `True`. -/
theorem C5_counterexample :
    (locateMods ⟨0, 8, 0, none⟩
        [("mods",
          [{ name := "A", hasInfo := true, markerPresent := true,
             doc := some ⟨[("name", some "A"), ("description", some "d"),
                           ("modid", some "3"), ("minimumLoaderVersion", some "0.1")]⟩ },
           { name := "B", hasInfo := true,
             doc := some ⟨[("name", some "B"), ("description", some "d"),
                           ("modid", some "3"), ("minimumLoaderVersion", some "0.1")]⟩ }])]
      ).toOption.map (fun st => (st.warnings, st.claims))
      = some ([], [(3, true)]) := by
  rfl

/-- C5 amended: a nonzero-prefix entity triggers the non-fatal collision
warning — leaving the claim map untouched — only when the recorded claim's
flag is `True` (an enabled claimant); when the prefix is unclaimed or its
recorded flag is `False` (a disabled claimant), the claim is recorded or
silently overwritten with the new entity's enabled flag. In either case the
entity itself is appended to the registry. -/
theorem C5_registerMod_spec (st : ScanState) (m : Mod) (h : m.modid ≠ 0) :
    (getClaim st.claims m.modid = some true →
      registerMod st m
        = { st with warnings := st.warnings ++ [collisionMsg m],
                    mods := st.mods ++ [m] }) ∧
    (getClaim st.claims m.modid ≠ some true →
      registerMod st m
        = { st with claims := setClaim st.claims m.modid m.enabled,
                    mods := st.mods ++ [m] }) := by
  constructor
  · intro hc
    simp [registerMod, h, hc]
  · intro hc
    cases hg : getClaim st.claims m.modid with
    | none => simp [registerMod, h, hg]
    | some b =>
      cases b with
      | false => simp [registerMod, h, hg]
      | true => exact absurd hg hc

/-- Witness for C5: an enabled claimant of prefix 7 makes the next claimant
warn without overwriting. -/
theorem C5_registerMod_spec_witness :
    (7 : Int) ≠ 0 ∧
    registerMod ⟨[], [(7, true)], []⟩ { initMod "mods/M" "M" false with modid := 7 }
      = { mods := [{ initMod "mods/M" "M" false with modid := 7 }],
          claims := [(7, true)],
          warnings := [collisionMsg { initMod "mods/M" "M" false with modid := 7 }] } :=
  ⟨by decide,
   (C5_registerMod_spec ⟨[], [(7, true)], []⟩
      { initMod "mods/M" "M" false with modid := 7 } (by decide)).1 rfl⟩

/-- C7 as frozen is false: a manifest carrying only `name` and `description`
makes `verifyLoaderVersion` dereference `mod.find("minimumLoaderVersion").text`
on `None`; the `AttributeError` lands the mod in the broken state. -/
theorem C7_counterexample :
    sanitizeFind ⟨[("name", some "My Mod"), ("description", some "Does things")]⟩ "name"
      = some "My Mod" ∧
    sanitizeFind ⟨[("name", some "My Mod"), ("description", some "Does things")]⟩
        "description" = some "Does things" ∧
    XmlRoot.findText ⟨[("name", some "My Mod"), ("description", some "Does things")]⟩
        "minimumLoaderVersion" = none ∧
    loadInfo ⟨0, 8, 0, none⟩ (initMod "mods/MyMod" "MyMod" false) true
        (some ⟨[("name", some "My Mod"), ("description", some "Does things")]⟩)
      = .invalid { path := "mods/MyMod", name := "My Mod [!]",
                   description := parseErrorDescription } := by
  refine ⟨rfl, rfl, rfl, rfl⟩

/-- C7 amended: three fields, not two, control the broken state. A manifest
whose `name` and `description` have text and whose `minimumLoaderVersion` has
text in valid dotted-version format always parses into a non-broken entity
(at worst annotated with a loader-version warning), whatever other tags are
absent; a manifest missing `minimumLoaderVersion` ends up broken. -/
theorem C7_manifest_fields :
    (∀ (lv : StrictVersion) (m0 : Mod) (root : XmlRoot) (nm desc t : String)
        (mv : StrictVersion) (p : Int),
      sanitizeFind root "name" = some nm →
      sanitizeFind root "description" = some desc →
      parsePyInt (pyOrStr (optionalTag root "modid") "0") = some p →
      root.findText "minimumLoaderVersion" = some (some t) →
      parseStrictVersion t = some mv →
      loadInfo lv m0 true (some root)
        = .loaded (if svLt lv mv then
            Mod.warn
              { m0 with name := nm, description := desc,
                        known_issues := optionalTag root "knownIssues",
                        version := optionalTag root "version",
                        author := optionalTag root "author",
                        website := optionalTag root "website",
                        updates := optionalTag root "updates",
                        modid := p, minimumLoaderVersion := some t }
              ("Mod loader version " ++ t ++ " is required")
          else
            { m0 with name := nm, description := desc,
                      known_issues := optionalTag root "knownIssues",
                      version := optionalTag root "version",
                      author := optionalTag root "author",
                      website := optionalTag root "website",
                      updates := optionalTag root "updates",
                      modid := p, minimumLoaderVersion := some t })) ∧
    (∀ (lv : StrictVersion) (m0 : Mod) (root : XmlRoot) (nm desc : String) (p : Int),
      sanitizeFind root "name" = some nm →
      sanitizeFind root "description" = some desc →
      parsePyInt (pyOrStr (optionalTag root "modid") "0") = some p →
      root.findText "minimumLoaderVersion" = none →
      loadInfo lv m0 true (some root)
        = .invalid (markBroken
            { m0 with name := nm, description := desc,
                      known_issues := optionalTag root "knownIssues",
                      version := optionalTag root "version",
                      author := optionalTag root "author",
                      website := optionalTag root "website",
                      updates := optionalTag root "updates",
                      modid := p })) := by
  constructor
  · intro lv m0 root nm desc t mv p hn hd hp hm hparse
    have ht : t ≠ "" := by
      intro h0
      rw [h0] at hparse
      simp [parseStrictVersion] at hparse
    simp [loadInfo, hn, hd, hp, hm, ht, hparse]
    split <;> rfl
  · intro lv m0 root nm desc p hn hd hp hm
    simp [loadInfo, hn, hd, hp, hm]

/-- Witness for C7: a manifest with exactly `name`, `description` and a valid
`minimumLoaderVersion` (no other tags) parses into a non-broken entity. -/
theorem C7_manifest_fields_witness :
    loadInfo ⟨0, 8, 0, none⟩ (initMod "mods/MyMod" "MyMod" false) true
        (some ⟨[("name", some "My Mod"), ("description", some "Does things"),
                ("minimumLoaderVersion", some "0.1")]⟩)
      = .loaded (if svLt ⟨0, 8, 0, none⟩ ⟨0, 1, 0, none⟩ then
          Mod.warn
            { initMod "mods/MyMod" "MyMod" false with
                name := "My Mod", description := "Does things",
                known_issues := "", version := "", author := "", website := "",
                updates := "", modid := 0, minimumLoaderVersion := some "0.1" }
            ("Mod loader version " ++ "0.1" ++ " is required")
        else
          { initMod "mods/MyMod" "MyMod" false with
              name := "My Mod", description := "Does things",
              known_issues := "", version := "", author := "", website := "",
              updates := "", modid := 0, minimumLoaderVersion := some "0.1" }) := by
  have h := C7_manifest_fields.1 ⟨0, 8, 0, none⟩ (initMod "mods/MyMod" "MyMod" false)
    ⟨[("name", some "My Mod"), ("description", some "Does things"),
      ("minimumLoaderVersion", some "0.1")]⟩
    "My Mod" "Does things" "0.1" ⟨0, 1, 0, none⟩ 0 rfl rfl rfl rfl rfl
  simpa using h

/-- C2: the build signature is the content digest of the lower-cased join of
the token list `["spacehaven", gameVersion]` followed by name and
version-or-placeholder of every enabled mod in registry order; it is a pure
function of the game version and the ordered active (name, version) pairs; and
the Alpha/Beta example produces exactly the spec's token list. -/
theorem C2_signature_spec :
    (∀ (digest : String → String) (gv : String) (mods : List Mod),
      current_mods_signature digest gv mods
        = digest (pyLower (pyJoin "__"
            (["spacehaven", gv] ++ (mods.filter (fun m => m.enabled)).flatMap
              (fun m => [m.name, pyOrStr m.version "VERSION_UNKNOWN"]))))) ∧
    (∀ (digest : String → String) (gv : String) (mods1 mods2 : List Mod),
      (mods1.filter (fun m => m.enabled)).map (fun m => (m.name, m.version))
        = (mods2.filter (fun m => m.enabled)).map (fun m => (m.name, m.version)) →
      current_mods_signature digest gv mods1 = current_mods_signature digest gv mods2) ∧
    signatureTokens "1.5"
        [{ path := "mods/Alpha", name := "Alpha", version := "1.0" },
         { path := "mods/Beta", name := "Beta" }]
      = ["spacehaven", "1.5", "Alpha", "1.0", "Beta", "VERSION_UNKNOWN"] := by
  have hfac : ∀ mods : List Mod,
      (mods.filter (fun m => m.enabled)).flatMap
          (fun m => [m.name, pyOrStr m.version "VERSION_UNKNOWN"])
        = ((mods.filter (fun m => m.enabled)).map (fun m => (m.name, m.version))).flatMap
            (fun q => [q.1, pyOrStr q.2 "VERSION_UNKNOWN"]) := by
    intro mods
    rw [List.flatMap_map]
  refine ⟨?_, ?_, ?_⟩
  · intro digest gv mods
    unfold current_mods_signature
    rw [textSig_eq]
  · intro digest gv mods1 mods2 h
    unfold current_mods_signature
    rw [textSig_eq, textSig_eq, hfac, hfac, h]
  · rfl

/-- Witness for C2: a disabled mod does not enter the signature, so two
registries with identical active (name, version) pairs share the signature. -/
theorem C2_signature_spec_witness :
    ([({ path := "mods/Alpha", name := "Alpha", version := "1.0" } : Mod),
      { path := "mods/Gamma", name := "Gamma", enabled := false }].filter
        (fun m => m.enabled)).map (fun m => (m.name, m.version))
      = ([({ path := "mods/Alpha", name := "Alpha", version := "1.0" } : Mod)].filter
          (fun m => m.enabled)).map (fun m => (m.name, m.version)) ∧
    current_mods_signature (fun s => s) "1.5"
        [{ path := "mods/Alpha", name := "Alpha", version := "1.0" },
         { path := "mods/Gamma", name := "Gamma", enabled := false }]
      = current_mods_signature (fun s => s) "1.5"
          [{ path := "mods/Alpha", name := "Alpha", version := "1.0" }] :=
  ⟨by decide,
   C2_signature_spec.2.1 (fun s => s) "1.5"
     [{ path := "mods/Alpha", name := "Alpha", version := "1.0" },
      { path := "mods/Gamma", name := "Gamma", enabled := false }]
     [{ path := "mods/Alpha", name := "Alpha", version := "1.0" }] (by decide)⟩

/-- C3 as frozen is false: changing an active mod's declared version from unset
to the literal `"VERSION_UNKNOWN"` changes neither the digest input text nor,
therefore, the signature, because the placeholder substituted for the unset
version lower-cases to the same token. -/
theorem C3_counterexample :
    ({ path := "mods/Alpha", name := "Alpha", version := "" } : Mod).enabled = true ∧
    ({ path := "mods/Alpha", name := "Alpha", version := "" } : Mod).version
      ≠ ({ path := "mods/Alpha", name := "Alpha", version := "VERSION_UNKNOWN" } : Mod).version ∧
    currentModsTextSig "1.5" [{ path := "mods/Alpha", name := "Alpha", version := "" }]
      = currentModsTextSig "1.5"
          [{ path := "mods/Alpha", name := "Alpha", version := "VERSION_UNKNOWN" }] ∧
    current_mods_signature (fun s => s) "1.5"
        [{ path := "mods/Alpha", name := "Alpha", version := "" }]
      = current_mods_signature (fun s => s) "1.5"
          [{ path := "mods/Alpha", name := "Alpha", version := "VERSION_UNKNOWN" }] := by
  exact ⟨rfl, by decide, rfl, rfl⟩

/-- C3 amended: every such change alters the digest *input* (the lower-cased
joined token text) — and hence the signature, the digest being deterministic —
provided the change survives lower-casing and placeholder substitution:
toggling any registered mod's enabled state always changes the text; changing
the game version changes it when the new version differs after lower-casing;
changing one active mod's declared version changes it when the
version-or-placeholder token differs after lower-casing (so version edits such
as unset → any case variant of "VERSION_UNKNOWN", or case-only edits, keep the
signature identical). -/
theorem C3_signature_sensitivity :
    (∀ (gv gv2 : String) (mods : List Mod), pyLower gv ≠ pyLower gv2 →
      currentModsTextSig gv mods ≠ currentModsTextSig gv2 mods) ∧
    (∀ (gv : String) (l1 l2 : List Mod) (m : Mod), m.enabled = true →
      currentModsTextSig gv (l1 ++ m :: l2)
        ≠ currentModsTextSig gv (l1 ++ { m with enabled := false } :: l2)) ∧
    (∀ (gv : String) (l1 l2 : List Mod) (m : Mod) (v2 : String), m.enabled = true →
      pyLower (pyOrStr m.version "VERSION_UNKNOWN")
        ≠ pyLower (pyOrStr v2 "VERSION_UNKNOWN") →
      currentModsTextSig gv (l1 ++ m :: l2)
        ≠ currentModsTextSig gv (l1 ++ { m with version := v2 } :: l2)) := by
  refine ⟨?_, ?_, ?_⟩
  · intro gv gv2 mods hne heq
    rw [textSig_eq, textSig_eq] at heq
    apply hne
    revert heq
    generalize (mods.filter (fun m => m.enabled)).flatMap
      (fun m => [m.name, pyOrStr m.version "VERSION_UNKNOWN"]) = T
    intro heq
    rw [show ("spacehaven" :: [gv] ++ T) = "spacehaven" :: gv :: T by simp,
      show ("spacehaven" :: [gv2] ++ T) = "spacehaven" :: gv2 :: T by simp,
      pyJoin_cons "__" "spacehaven" (gv :: T) (by simp),
      pyJoin_cons "__" "spacehaven" (gv2 :: T) (by simp)] at heq
    rw [pyLower_append, pyLower_append, pyLower_append, pyLower_append] at heq
    have heq2 := str_append_cancel_left heq
    cases T with
    | nil => simpa [pyJoin] using heq2
    | cons t ts =>
      rw [pyJoin_cons "__" gv (t :: ts) (by simp),
        pyJoin_cons "__" gv2 (t :: ts) (by simp)] at heq2
      simp only [String.append_assoc, pyLower_append] at heq2
      exact str_append_cancel_right heq2
  · intro gv l1 l2 m hm heq
    have hlen := congrArg String.length heq
    rw [textSig_eq, textSig_eq, pyLower_length, pyLower_length,
      pyJoin_length "__" _ (by simp), pyJoin_length "__" _ (by simp)] at hlen
    simp only [List.filter_append, List.filter_cons, hm, List.flatMap_append,
      List.flatMap_cons, List.map_append, List.sum_append, List.length_append,
      List.map_cons, List.sum_cons, List.length_cons, List.cons_append,
      List.map_nil, List.sum_nil, List.length_nil, if_true, if_false,
      Bool.false_eq_true, ite_true, ite_false, List.nil_append, List.append_nil] at hlen
    have hsep : ("__" : String).length = 2 := rfl
    rw [hsep] at hlen
    omega
  · intro gv l1 l2 m v2 hm hne heq
    rw [textSig_eq, textSig_eq] at heq
    simp only [List.filter_append, List.filter_cons, hm, List.flatMap_append,
      List.flatMap_cons, if_true, ite_true] at heq
    apply hne
    revert heq
    generalize (l1.filter (fun m => m.enabled)).flatMap
      (fun m => [m.name, pyOrStr m.version "VERSION_UNKNOWN"]) = F1
    generalize (l2.filter (fun m => m.enabled)).flatMap
      (fun m => [m.name, pyOrStr m.version "VERSION_UNKNOWN"]) = F2
    intro heq
    rw [show ∀ e : String, ["spacehaven", gv] ++ (F1 ++ ([m.name, e] ++ F2))
          = ("spacehaven" :: gv :: (F1 ++ [m.name])) ++ e :: F2 by intro e; simp,
      show ["spacehaven", gv] ++ (F1 ++ ([m.name, pyOrStr v2 "VERSION_UNKNOWN"] ++ F2))
          = ("spacehaven" :: gv :: (F1 ++ [m.name])) ++ pyOrStr v2 "VERSION_UNKNOWN" :: F2
        by simp] at heq
    rw [pyJoin_middle "__" _ _ F2 (by simp), pyJoin_middle "__" _ _ F2 (by simp)] at heq
    rw [pyLower_append, pyLower_append, pyLower_append, pyLower_append,
      pyLower_append, pyLower_append] at heq
    exact str_append_cancel_left (str_append_cancel_right heq)

/-- Witness for C3: disabling the only active mod changes the text signature. -/
theorem C3_signature_sensitivity_witness :
    ({ path := "mods/Alpha", name := "Alpha", version := "1.0" } : Mod).enabled = true ∧
    currentModsTextSig "1.5"
        ([] ++ ({ path := "mods/Alpha", name := "Alpha", version := "1.0" } : Mod) :: [])
      ≠ currentModsTextSig "1.5"
          ([] ++ ({ ({ path := "mods/Alpha", name := "Alpha", version := "1.0" } : Mod) with
              enabled := false }) :: []) :=
  ⟨rfl, C3_signature_sensitivity.2.1 "1.5" [] []
    { path := "mods/Alpha", name := "Alpha", version := "1.0" } rfl⟩

/-- Witness for C8 from a concrete consistent state: disable then enable ends
enabled with the marker absent. -/
theorem C8_enable_disable_witness :
    (initMod "mods/M" "M" false).enabled = !false ∧
    ((List.foldl applyOp (initMod "mods/M" "M" false, false) ([.dis] ++ [.en])).1.enabled,
      (List.foldl applyOp (initMod "mods/M" "M" false, false) ([.dis] ++ [.en])).2)
      = (true, false) :=
  ⟨by decide,
    C8_enable_disable.2.2.2.2 (initMod "mods/M" "M" false) false [.dis] .en (by decide)⟩

end SpaceHaven
